import Mathlib

/-!
Shallow embedding of the room-inventory availability engine of the
homestay booking backend (TypeScript/Express/Mongoose).

Calendar dates are modelled as integer day indexes (a `Date` parsed at
UTC midnight); `getTime()` of such a date is `day * msPerDay`
milliseconds.  Monetary values are integers (JS numbers used as whole
currency units in the source); the fractional tax computations are
carried out exactly over `ℚ` with JS `Math.round`/`Math.ceil` modelled
as `⌊q + 1/2⌋` and `⌈q⌉`.

Each definition is translated from the source file named in its doc
comment.  Two booking schemas / controller generations coexist in the
repository; the embedding keeps both conflict predicates (the
closed-interval query of `src/controllers/bookingController.ts` and the
half-open `findOverlapping` of the booking model).
-/

/-- Milliseconds per day (`1000 * 60 * 60 * 24` in the source). -/
def msPerDay : ℤ := 86400000

/-- Milliseconds per hour (`1000 * 60 * 60` in the source). -/
def msPerHour : ℤ := 3600000

/-- JS `Math.round`: round half up, `floor (x + 0.5)`. -/
def jsRound (q : ℚ) : ℤ := ⌊q + 1/2⌋

/-- Reservation status enumeration from the booking schema
(`status: pending | confirmed | cancelled | completed`). -/
inductive BStatus where
  | pending
  | confirmed
  | cancelled
  | completed
deriving DecidableEq, Repr

/-- Only `pending` and `confirmed` reservations consume inventory:
every aggregation query filters `status: { $in: ['pending','confirmed'] }`. -/
def BStatus.isActive : BStatus → Bool
  | .pending => true
  | .confirmed => true
  | _ => false

/-- A stored booking document (fields of the Booking schema in
`src/models/...` that the availability engine reads).  `checkIn` and
`checkOut` are day indexes; pricing fields mirror the schema
(`nights`, `pricePerNight`, `totalPrice`, `gstAmount`). -/
structure Booking where
  room : ℕ
  checkIn : ℤ
  checkOut : ℤ
  numberOfRooms : ℕ
  status : BStatus
  guests : ℕ
  nights : ℤ
  pricePerNight : ℤ
  totalPrice : ℤ
  gstAmount : ℤ
  bookingReference : String
  cancelledAt : Option ℤ
  cancellationReason : Option String
deriving DecidableEq, Repr

/-- A room (RoomType) document: `_id`, `totalRooms`, `isAvailable`,
`price`, `capacity` from the Room model. -/
structure Room where
  id : ℕ
  totalRooms : ℕ
  isAvailable : Bool
  price : ℤ
  capacity : ℕ
deriving DecidableEq, Repr

/-- A booking occupies calendar day `d` of room `roomId`: the per-day
aggregation loops run `while (currentDate < checkOut)` starting at
`checkIn`, over active bookings of the room. -/
def occupies (b : Booking) (roomId : ℕ) (d : ℤ) : Bool :=
  b.room == roomId && b.status.isActive && b.checkIn ≤ d && d < b.checkOut

/-- Units committed on day `d` for room `roomId`: the sum of
`numberOfRooms` over every active stored booking of that room whose
half-open stay interval contains `d` (the value the per-date maps of
the availability controllers hold at key `d`). -/
def committedOn (store : List Booking) (roomId : ℕ) (d : ℤ) : ℕ :=
  ((store.filter (fun b => occupies b roomId d)).map (fun b => b.numberOfRooms)).sum

/-- The inline conflict query of `createBooking` in
`src/controllers/bookingController.ts` (lines 163-169):
`checkIn: { $lte: checkOutDate }, checkOut: { $gte: checkInDate }` over
active bookings of the room — a CLOSED-interval overlap test, the
comment reads "includes checkout date blocking". -/
def conflictsClosed (roomId : ℕ) (checkIn checkOut : ℤ) (b : Booking) : Bool :=
  b.room == roomId && b.status.isActive && b.checkIn ≤ checkOut && checkIn ≤ b.checkOut

/-- The half-open overlap test of `bookingSchema.statics.findOverlapping`
(booking model, `checkIn: { $lt: checkOut }, checkOut: { $gt: checkIn }`)
— also the fetch filter of every availability aggregation query. -/
def overlapsHalfOpen (roomId : ℕ) (checkIn checkOut : ℤ) (b : Booking) : Bool :=
  b.room == roomId && b.status.isActive && b.checkIn < checkOut && checkIn < b.checkOut

/-- `Booking.findOne` with the closed-interval conflict filter. -/
def findConflicting (store : List Booking) (roomId : ℕ) (checkIn checkOut : ℤ) :
    Option Booking :=
  store.find? (conflictsClosed roomId checkIn checkOut)

/-- `Room.findById` over the catalog. -/
def findRoom (rooms : List Room) (roomId : ℕ) : Option Room :=
  rooms.find? (fun r => r.id == roomId)

/-- `BookingPricingService.calculateNights` (src/services/bookingPricingService.ts):
`Math.ceil((checkOut.getTime() - checkIn.getTime()) / (1000*60*60*24))`,
dates at UTC midnight so `getTime() = day * msPerDay`. -/
def calculateNights (checkIn checkOut : ℤ) : ℤ :=
  ⌈((checkOut * msPerDay - checkIn * msPerDay : ℤ) : ℚ) / (msPerDay : ℚ)⌉

/-- Result record of `BookingPricingService.calculatePricing`. -/
structure PricingCalculation where
  nights : ℤ
  pricePerNight : ℤ
  numberOfRooms : ℕ
  basePrice : ℤ
  gstAmount : ℤ
  totalPrice : ℤ
deriving DecidableEq, Repr

/-- `GST_RATE = 0.18` (18% GST, fixed) of `BookingPricingService`. -/
def GST_RATE : ℚ := 18/100

/-- `BookingPricingService.calculatePricing`
(src/services/bookingPricingService.ts lines 33-65):
`basePrice = pricePerNight * nights * numberOfRooms`,
`gstAmount = Math.round(basePrice * GST_RATE)`,
`totalPrice = basePrice + gstAmount`. -/
def calculatePricing (pricePerNight : ℤ) (checkIn checkOut : ℤ)
    (numberOfRooms : ℕ) : PricingCalculation :=
  let nights := calculateNights checkIn checkOut
  let basePrice := pricePerNight * nights * numberOfRooms
  let gstAmount := jsRound ((basePrice : ℚ) * GST_RATE)
  { nights := nights
    pricePerNight := pricePerNight
    numberOfRooms := numberOfRooms
    basePrice := basePrice
    gstAmount := gstAmount
    totalPrice := basePrice + gstAmount }

/-- Result of the inline pricing block of `checkAvailability`
(src/controllers/bookingController.ts lines 548-557). -/
structure CheckAvailPricing where
  nights : ℤ
  pricePerNight : ℤ
  basePrice : ℤ
  taxAmount : ℤ
  totalPrice : ℤ
deriving DecidableEq, Repr

/-- Inline pricing of `checkAvailability`
(src/controllers/bookingController.ts lines 548-557):
`nights = Math.ceil((checkOut - checkIn) / msPerDay)`,
`basePrice = pricePerNight * nights` (no unit count),
`taxAmount = Math.round(basePrice * 0.12)` (12% tax),
`totalPrice = basePrice + taxAmount`. -/
def checkAvailabilityPricing (price : ℤ) (checkIn checkOut : ℤ) :
    CheckAvailPricing :=
  let nights := calculateNights checkIn checkOut
  let basePrice := price * nights
  let taxAmount := jsRound ((basePrice : ℚ) * (12/100))
  { nights := nights
    pricePerNight := price
    basePrice := basePrice
    taxAmount := taxAmount
    totalPrice := basePrice + taxAmount }

/-- The reference string built by the booking schema pre-save hook:
`` `${prefix}-${timestamp}-${random}` `` with `prefix = 'BK'`,
`timestamp = Date.now().toString(36).toUpperCase()` and a 4-char random
suffix; the time token and random suffix enter as parameters. -/
def generateReference (timestamp random : String) : String :=
  "BK" ++ "-" ++ timestamp ++ "-" ++ random

/-- The booking schema `pre('save')` hook
(src/models/... lines 282-301): generate `bookingReference` when unset;
compute `nights = Math.ceil(Math.abs(checkOut - checkIn) / msPerDay)`
when falsy; when `pricePerNight` is truthy and `totalPrice` falsy, set
`totalPrice = basePrice + gst` with
`basePrice = pricePerNight * nights * numberOfRooms` and
`gst = this.gstAmount || Math.round(basePrice * 0.18)`. -/
def preSave (b : Booking) (timestamp random : String) : Booking :=
  let ref := if b.bookingReference = "" then generateReference timestamp random
             else b.bookingReference
  let nights :=
    if b.nights = 0 then
      ⌈(((b.checkOut * msPerDay - b.checkIn * msPerDay).natAbs : ℤ) : ℚ) / (msPerDay : ℚ)⌉
    else b.nights
  let totalPrice :=
    if b.pricePerNight ≠ 0 ∧ b.totalPrice = 0 then
      let basePrice := b.pricePerNight * nights * b.numberOfRooms
      let gst := if b.gstAmount ≠ 0 then b.gstAmount
                 else jsRound ((basePrice : ℚ) * GST_RATE)
      basePrice + gst
    else b.totalPrice
  { b with bookingReference := ref, nights := nights, totalPrice := totalPrice }

/-- Rejection reasons of the booking-creation request handler. -/
inductive RejectReason where
  | roomNotFound
  | roomUnavailable
  | invalidDateRange
  | pastCheckIn
  | dateConflict
deriving DecidableEq, Repr

/-- Decision returned by the booking-creation request handler. -/
inductive Decision where
  | accepted (b : Booking)
  | rejected (r : RejectReason)
deriving DecidableEq, Repr

/-- A booking-creation request body (the fields of `req.body` that the
availability engine reads; `numberOfRooms` is carried as in the Joi
validator / newer controller generation; the older
`bookingController.ts` controller does not read it and the per-day
aggregators then count the booking as `numberOfRooms || 1`, so the
request it builds carries `numberOfRooms = 1`). -/
structure CreateReq where
  room : ℕ
  checkIn : ℤ
  checkOut : ℤ
  guests : ℕ
  numberOfRooms : ℕ
  nights : ℤ
  pricePerNight : ℤ
  totalPrice : ℤ
  taxAmount : ℤ
deriving DecidableEq, Repr

/-- `createBooking` of src/controllers/bookingController.ts
(lines 91-256), precondition checks in source order:
room exists, `room.isAvailable`, `checkOut > checkIn`,
`checkIn ≥ today`, then the closed-interval conflict `findOne`
(lines 163-169); on success `Booking.create` persists the
client-supplied pricing fields with `status: 'confirmed'` and runs the
schema pre-save hook. -/
def createBooking (rooms : List Room) (today : ℤ) (store : List Booking)
    (req : CreateReq) (timestamp random : String) : Decision :=
  match findRoom rooms req.room with
  | none => .rejected .roomNotFound
  | some room =>
    if !room.isAvailable then .rejected .roomUnavailable
    else if req.checkOut ≤ req.checkIn then .rejected .invalidDateRange
    else if req.checkIn < today then .rejected .pastCheckIn
    else
      match findConflicting store req.room req.checkIn req.checkOut with
      | some _ => .rejected .dateConflict
      | none =>
        .accepted (preSave
          { room := req.room
            checkIn := req.checkIn
            checkOut := req.checkOut
            numberOfRooms := 1
            status := .confirmed
            guests := req.guests
            nights := req.nights
            pricePerNight := req.pricePerNight
            totalPrice := req.totalPrice
            gstAmount := req.taxAmount
            cancelledAt := none
            cancellationReason := none
            bookingReference := "" } timestamp random)

/-- One booking-creation request against the store: an accepted request
appends the persisted booking, a rejected one leaves the store
unchanged. -/
def stepStore (rooms : List Room) (today : ℤ) (store : List Booking)
    (q : CreateReq × String × String) : List Booking :=
  match createBooking rooms today store q.1 q.2.1 q.2.2 with
  | .accepted b => store ++ [b]
  | .rejected _ => store

/-- The store reached from the empty store by a sequence of
booking-creation requests, keeping only the accepted ones. -/
def runRequests (rooms : List Room) (today : ℤ)
    (qs : List (CreateReq × String × String)) : List Booking :=
  qs.foldl (stepStore rooms today) []

/-- JS `booking.numberOfRooms || 1` (checkAvailabilityController.ts,
getUnavailableDatesByRoomType.ts): falsy unit count defaults to 1. -/
def jsUnits (n : ℕ) : ℕ := if n = 0 then 1 else n

/-- Per-day committed count with the `|| 1` default, summed over a
fetched booking list: the final value the `bookingsPerDate` map of
`checkDateAvailability` / `getRoomAvailability` holds at key `d`. -/
def bookedOnDefault1 (bs : List Booking) (d : ℤ) : ℕ :=
  ((bs.filter (fun b => b.checkIn ≤ d && d < b.checkOut)).map
    (fun b => jsUnits b.numberOfRooms)).sum

/-- Per-day committed count without default (part_002
`checkRoomTypeDateAvailability` / `getRoomTypeAvailability` add the raw
`booking.numberOfRooms`). -/
def bookedOnRaw (bs : List Booking) (d : ℤ) : ℕ :=
  ((bs.filter (fun b => b.checkIn ≤ d && d < b.checkOut)).map
    (fun b => b.numberOfRooms)).sum

/-- The days a single booking's per-day loop writes:
`currentDate = checkIn; while (currentDate < checkOut) currentDate++`. -/
def coveredDays (b : Booking) : List ℤ :=
  (List.range (b.checkOut - b.checkIn).toNat).map (fun k => b.checkIn + k)

/-- The key set of the per-date map after processing every fetched
booking. -/
def allCoveredDays (bs : List Booking) : List ℤ :=
  bs.foldr (fun b acc => coveredDays b ++ acc) []

/-- `Math.max(...Array.from(map.values()))` with the empty-map guard
returning 0: the maximum per-day committed count over the keys of the
per-date map (`checkDateAvailability` lines 188-191, with the `|| 1`
unit default of that controller). -/
def maxBookedRooms (bs : List Booking) : ℕ :=
  (allCoveredDays bs).foldr (fun d m => max (bookedOnDefault1 bs d) m) 0

/-- Same maximum for the part_002 aggregators, which add the raw
`numberOfRooms`. -/
def maxBookedRoomsRaw (bs : List Booking) : ℕ :=
  (allCoveredDays bs).foldr (fun d m => max (bookedOnRaw bs d) m) 0

/-- Response data of the date-availability checks. -/
structure AvailResult where
  available : Bool
  availableRooms : ℤ
  totalRooms : ℕ
  bookedRooms : ℕ
deriving DecidableEq, Repr

/-- `checkDateAvailability` (src/controllers/room/checkAvailabilityController.ts
lines 160-218): fetch active bookings of the room with the half-open
range filter, build the per-date map with the `|| 1` unit default, take
`maxBookedRooms`, clamp `availableRooms = Math.max(0, totalRooms -
maxBookedRooms)`, and report `available = availableRooms > 0`. -/
def checkDateAvailability (store : List Booking) (room : Room)
    (checkIn checkOut : ℤ) : AvailResult :=
  let fetched := store.filter (overlapsHalfOpen room.id checkIn checkOut)
  let maxBooked := maxBookedRooms fetched
  let availableRooms : ℤ := max 0 ((room.totalRooms : ℤ) - maxBooked)
  { available := availableRooms > 0
    availableRooms := availableRooms
    totalRooms := room.totalRooms
    bookedRooms := maxBooked }

/-- `checkRoomTypeDateAvailability` (src/unnamed/part_002 lines 120-239):
fetch active bookings of all rooms of the type with the half-open range
filter, build the per-date map from the raw `numberOfRooms`, take the
maximum, clamp `availableRooms = Math.max(0, totalRooms - maxBooked)`,
and report `available = availableRooms >= requestedRooms`. -/
def checkRoomTypeDateAvailability (store : List Booking) (roomIds : List ℕ)
    (totalRooms : ℕ) (requestedRooms : ℕ) (checkIn checkOut : ℤ) : AvailResult :=
  let fetched := store.filter (fun b =>
    roomIds.contains b.room && b.status.isActive &&
    b.checkIn < checkOut && checkIn < b.checkOut)
  let maxBooked := maxBookedRoomsRaw fetched
  let availableRooms : ℤ := max 0 ((totalRooms : ℤ) - maxBooked)
  { available := availableRooms ≥ requestedRooms
    availableRooms := availableRooms
    totalRooms := totalRooms
    bookedRooms := maxBooked }

/-- One line of the 30-day availability calendar. -/
structure CalEntry where
  date : ℤ
  available : Bool
  availableRooms : ℤ
  totalRooms : ℕ
deriving DecidableEq, Repr

/-- `getRoomAvailability` (src/controllers/room/checkAvailabilityController.ts
lines 10-99): `end = start + 30`; fetch active bookings of the room
intersecting `[start, end)`; build the per-date map with the `|| 1`
default; then `while (calendarDate <= end)` — an INCLUSIVE loop, 31
entries — emit `availableCount = totalRooms - booked` (no clamp here)
and `available = availableCount > 0`. -/
def getRoomAvailability (store : List Booking) (room : Room) (start : ℤ) :
    List CalEntry :=
  let endDay := start + 30
  let fetched := store.filter (overlapsHalfOpen room.id start endDay)
  (List.range 31).map (fun k =>
    let d := start + k
    let booked := bookedOnDefault1 fetched d
    let availableCount : ℤ := (room.totalRooms : ℤ) - booked
    { date := d
      available := availableCount > 0
      availableRooms := availableCount
      totalRooms := room.totalRooms })

/-- `bookingSchema.methods.canBeCancelled`:
`hoursDiff = (checkIn.getTime() - now.getTime()) / (1000*60*60)`;
cancellable iff status is neither `completed` nor `cancelled` and
`hoursDiff > 24`.  `nowMs` is the clock reading in milliseconds. -/
def canBeCancelled (b : Booking) (nowMs : ℤ) : Bool :=
  b.status ≠ BStatus.completed && b.status ≠ BStatus.cancelled &&
    ((((b.checkIn * msPerDay - nowMs : ℤ) : ℚ) / (msPerHour : ℚ)) > 24)

/-- `cancelBooking` (src/controllers/bookingController.ts lines 328-359):
reject (leaving the booking unchanged) unless `canBeCancelled()`;
otherwise set `status = 'cancelled'`, `cancelledAt = now`,
`cancellationReason = reason` and save. -/
def cancelBooking (b : Booking) (nowMs : ℤ) (reason : String) : Option Booking :=
  if canBeCancelled b nowMs then
    some { b with status := .cancelled
                  cancelledAt := some nowMs
                  cancellationReason := some reason }
  else none

/-- Persistence error surfaced by the save path. -/
inductive SaveError where
  | duplicateKey
  | referenceRetriesExhausted
deriving DecidableEq, Repr

/-- One `booking.save()` against the `bookingReference` uniqueness
index: run the pre-save hook, then fail with the Mongo duplicate-key
error (code 11000) when the reference already exists.  The
booking-creation controller (src/unnamed/part_003 lines 203-210) maps
that error straight to a 400 response — it performs NO retry. -/
def saveBooking (existingRefs : List String) (b : Booking)
    (timestamp random : String) : Except SaveError Booking :=
  let saved := preSave b timestamp random
  if existingRefs.contains saved.bookingReference then .error .duplicateKey
  else .ok saved

/-- Modelled from the spec: §4.4's Reservation Reference Generator
contract — "on collision, the Admission Controller must retry
generation (bounded retries, e.g. 3) before failing with a
`ReferenceGenerationFailed` error".  No such retry loop exists under
src/; this definition follows the spec's words to compare against
`saveBooking`.  `gens` is the stream of (time token, random suffix)
pairs the successive generation attempts would draw. -/
def specSaveWithRetry (existingRefs : List String) (b : Booking) :
    List (String × String) → ℕ → Except SaveError Booking
  | _, 0 => .error .referenceRetriesExhausted
  | [], _ => .error .referenceRetriesExhausted
  | g :: gs, n + 1 =>
    match saveBooking existingRefs b g.1 g.2 with
    | .ok saved => .ok saved
    | .error _ => specSaveWithRetry existingRefs b gs n

/-- Modelled from the spec: §4.2's core admission quantity
`maxCommitted = max(occupancy values over all days in [checkIn,
checkOut)), default 0 if range empty)`, with occupancy as computed by
the Occupancy Aggregator over the stored reservations. -/
def specMaxCommitted (store : List Booking) (roomId : ℕ)
    (checkIn checkOut : ℤ) : ℕ :=
  ((List.range (checkOut - checkIn).toNat).map
    (fun k => committedOn store roomId (checkIn + k))).foldr max 0

/-- Modelled from the spec: §4.2's core admission test `availableUnits =
totalUnits - maxCommitted; accept only if availableUnits ≥
requestedUnits`, stated additively to avoid truncated subtraction. -/
def specAdmits (store : List Booking) (roomId : ℕ) (totalUnits : ℕ)
    (checkIn checkOut : ℤ) (requestedUnits : ℕ) : Prop :=
  requestedUnits + specMaxCommitted store roomId checkIn checkOut ≤ totalUnits

/-- `requiredRooms = Math.ceil(guests / 3)` — the guest-capacity gate of
the newer `createBooking` (src/unnamed/part_003 lines 99-108, "3 guests
per room"). -/
def requiredRooms (guests : ℕ) : ℕ := ⌈(guests : ℚ) / 3⌉.toNat

/-- The rejection condition of that gate:
`if (numberOfRooms < requiredRooms)` → reject "Insufficient rooms for
number of guests". -/
def insufficientRooms (guests numberOfRooms : ℕ) : Bool :=
  numberOfRooms < requiredRooms guests

/-- Pairwise disjointness of active same-room bookings, the shape the
closed-interval conflict check leaves behind. -/
def activeDisjoint (b1 b2 : Booking) : Prop :=
  b1.room = b2.room → b1.status.isActive = true → b2.status.isActive = true →
    (b1.checkOut < b2.checkIn ∨ b2.checkOut < b1.checkIn)

/-- Inductive store invariant maintained by the accepted-only creation
runs of `src/controllers/bookingController.ts`: active same-room
bookings are pairwise date-disjoint and every stored booking consumes a
single unit (that controller generation writes no `numberOfRooms`; the
aggregators count such a booking as `numberOfRooms || 1 = 1`). -/
def storeInv (store : List Booking) : Prop :=
  List.Pairwise activeDisjoint store ∧ ∀ b ∈ store, b.numberOfRooms = 1

/-- Fixture: a room type with a single physical unit (`Cozy Mountain
Cabin` has `totalRooms = 1` in the migration script). -/
def roomOne : Room :=
  { id := 0, totalRooms := 1, isAvailable := true, price := 1000, capacity := 3 }

/-- Fixture: a room type with two physical units. -/
def roomTwo : Room :=
  { id := 0, totalRooms := 2, isAvailable := true, price := 1000, capacity := 3 }

/-- Fixture: a confirmed one-unit booking of room 0 with
`checkIn = 2024-05-01`, `checkOut = 2024-05-03` (day indexes 0 and 2). -/
def bookingMay1to3 : Booking :=
  { room := 0, checkIn := 0, checkOut := 2, numberOfRooms := 1,
    status := .confirmed, guests := 2, nights := 2, pricePerNight := 1000,
    totalPrice := 2360, gstAmount := 360, bookingReference := "BK-A-AAAA",
    cancelledAt := none, cancellationReason := none }

/-- Fixture: a creation request checking in on 2024-05-03 (day 2), the
existing booking's checkout day. -/
def reqMay3 : CreateReq :=
  { room := 0, checkIn := 2, checkOut := 3, guests := 1, numberOfRooms := 1,
    nights := 1, pricePerNight := 1000, totalPrice := 1180, taxAmount := 180 }

/-- Fixture: a one-unit request for days [0, 2) with client-supplied
pricing. -/
def reqOverlap : CreateReq :=
  { room := 0, checkIn := 0, checkOut := 2, guests := 1, numberOfRooms := 1,
    nights := 2, pricePerNight := 1000, totalPrice := 2360, taxAmount := 360 }

/-- Fixture: a request for days [0, 3) whose client-supplied
`totalPrice` is 1. -/
def reqClientPrice : CreateReq :=
  { room := 0, checkIn := 0, checkOut := 3, guests := 1, numberOfRooms := 1,
    nights := 3, pricePerNight := 1000, totalPrice := 1, taxAmount := 0 }

/-- Fixture: a confirmed booking checking in on day 2 (more than 24
hours after clock reading 0). -/
def bookingFuture : Booking :=
  { room := 0, checkIn := 2, checkOut := 3, numberOfRooms := 1,
    status := .confirmed, guests := 1, nights := 1, pricePerNight := 1000,
    totalPrice := 1180, gstAmount := 180, bookingReference := "BK-B-BBBB",
    cancelledAt := none, cancellationReason := none }

/-- Fixture: an unsaved booking document without a reference and with a
zero client total (the pre-save hook computes both). -/
def bookingZeroPrice : Booking :=
  { room := 0, checkIn := 0, checkOut := 3, numberOfRooms := 1,
    status := .confirmed, guests := 1, nights := 3, pricePerNight := 1000,
    totalPrice := 0, gstAmount := 0, bookingReference := "",
    cancelledAt := none, cancellationReason := none }

/-- Fixture: an unsaved booking document without a reference, pricing
already supplied. -/
def bookingNoRef : Booking :=
  { room := 0, checkIn := 0, checkOut := 1, numberOfRooms := 1,
    status := .confirmed, guests := 1, nights := 1, pricePerNight := 1000,
    totalPrice := 1180, gstAmount := 180, bookingReference := "",
    cancelledAt := none, cancellationReason := none }

lemma calculateNights_eq (checkIn checkOut : ℤ) :
    calculateNights checkIn checkOut = checkOut - checkIn := by
  unfold calculateNights
  have hms : ((msPerDay : ℤ) : ℚ) ≠ 0 := by norm_num [msPerDay]
  have : ((checkOut * msPerDay - checkIn * msPerDay : ℤ) : ℚ) / ((msPerDay : ℤ) : ℚ)
      = ((checkOut - checkIn : ℤ) : ℚ) := by
    push_cast
    field_simp
    ring
  rw [this, Int.ceil_intCast]

lemma jsRound_intCast (n : ℤ) : jsRound ((n : ℚ)) = n := by
  unfold jsRound
  rw [Int.floor_eq_iff]
  constructor <;> norm_num

lemma calculatePricing_explicit (rate checkIn checkOut : ℤ) (units : ℕ) :
    calculatePricing rate checkIn checkOut units =
      { nights := checkOut - checkIn
        pricePerNight := rate
        numberOfRooms := units
        basePrice := rate * (checkOut - checkIn) * units
        gstAmount := jsRound ((rate * (checkOut - checkIn) * units : ℤ) * GST_RATE)
        totalPrice := rate * (checkOut - checkIn) * units
          + jsRound ((rate * (checkOut - checkIn) * units : ℤ) * GST_RATE) } := by
  unfold calculatePricing
  rw [calculateNights_eq]

lemma jsRound_mul_gst_1080 : jsRound ((6000 : ℤ) * GST_RATE) = 1080 := by
  have h : ((6000 : ℤ) : ℚ) * GST_RATE = ((1080 : ℤ) : ℚ) := by
    norm_num [GST_RATE]
  rw [h, jsRound_intCast]

lemma jsRound_eq_of_intCast {q : ℚ} {n : ℤ} (h : q = (n : ℚ)) : jsRound q = n := by
  rw [h, jsRound_intCast]

lemma checkAvailabilityPricing_explicit (price checkIn checkOut : ℤ) :
    checkAvailabilityPricing price checkIn checkOut =
      { nights := checkOut - checkIn
        pricePerNight := price
        basePrice := price * (checkOut - checkIn)
        taxAmount := jsRound (((price * (checkOut - checkIn) : ℤ) : ℚ) * (12/100))
        totalPrice := price * (checkOut - checkIn)
          + jsRound (((price * (checkOut - checkIn) : ℤ) : ℚ) * (12/100)) } := by
  unfold checkAvailabilityPricing
  rw [calculateNights_eq]

/-- C4 (amended).  Pricing Calculator postcondition: for every input
with `checkOut > checkIn`, `BookingPricingService.calculatePricing`
yields `nights = checkOut - checkIn ≥ 1` (the ceiling of the whole-day
difference), `basePrice = nightlyRate * nights * numberOfUnits`,
`gstAmount = round(basePrice * 0.18)` half-up, and `totalPrice =
basePrice + gstAmount`; and
`calculatePricing(rate=1000, 2024-01-01, 2024-01-04, units=2)` yields
nights 3, basePrice 6000, gstAmount 1080, totalPrice 7080.  (The
claim's further conjunct — the same fixed tax rate on every pricing
path — is dropped: `checkAvailability` uses 12%, see the
counterexample.) -/
theorem pricing_calculator_postcondition :
    (∀ (rate checkIn checkOut : ℤ) (units : ℕ), checkIn < checkOut →
      (calculatePricing rate checkIn checkOut units).nights = checkOut - checkIn ∧
      1 ≤ (calculatePricing rate checkIn checkOut units).nights ∧
      (calculatePricing rate checkIn checkOut units).basePrice
        = rate * (checkOut - checkIn) * units ∧
      (calculatePricing rate checkIn checkOut units).gstAmount
        = jsRound (((calculatePricing rate checkIn checkOut units).basePrice : ℚ)
            * GST_RATE) ∧
      (calculatePricing rate checkIn checkOut units).totalPrice
        = (calculatePricing rate checkIn checkOut units).basePrice
          + (calculatePricing rate checkIn checkOut units).gstAmount) ∧
    calculatePricing 1000 0 3 2 =
      { nights := 3, pricePerNight := 1000, numberOfRooms := 2,
        basePrice := 6000, gstAmount := 1080, totalPrice := 7080 } := by
  constructor
  · intro rate checkIn checkOut units h
    rw [calculatePricing_explicit]
    refine ⟨rfl, ?_, rfl, rfl, rfl⟩
    show (1 : ℤ) ≤ checkOut - checkIn
    omega
  · rw [calculatePricing_explicit]
    have hbase : (1000 * ((3 : ℤ) - 0) * ((2 : ℕ) : ℤ)) = 6000 := by norm_num
    rw [hbase, jsRound_mul_gst_1080]
    simp only [PricingCalculation.mk.injEq]
    norm_num

/-- C4 witness: the postcondition applied at the spec's concrete
instance. -/
theorem pricing_calculator_postcondition_witness :
    (0 : ℤ) < 3 ∧
    ((calculatePricing 1000 0 3 2).nights = 3 - 0 ∧
     1 ≤ (calculatePricing 1000 0 3 2).nights ∧
     (calculatePricing 1000 0 3 2).basePrice = 1000 * (3 - 0) * 2 ∧
     (calculatePricing 1000 0 3 2).gstAmount
       = jsRound (((calculatePricing 1000 0 3 2).basePrice : ℚ) * GST_RATE) ∧
     (calculatePricing 1000 0 3 2).totalPrice
       = (calculatePricing 1000 0 3 2).basePrice
         + (calculatePricing 1000 0 3 2).gstAmount) :=
  ⟨by decide, pricing_calculator_postcondition.1 1000 0 3 2 (by decide)⟩

/-- C4 counterexample: not every pricing path applies the same fixed
tax rate — on the same base price of 100, `calculatePricing` (18% GST)
produces 18 while the inline pricing of `checkAvailability`
(`bookingController.ts` lines 548-557, 12%) produces 12. -/
theorem pricing_tax_rate_mismatch :
    (calculatePricing 100 0 1 1).basePrice = 100 ∧
    (checkAvailabilityPricing 100 0 1).basePrice = 100 ∧
    (calculatePricing 100 0 1 1).gstAmount = 18 ∧
    (checkAvailabilityPricing 100 0 1).taxAmount = 12 ∧
    (18 : ℤ) ≠ 12 := by
  rw [calculatePricing_explicit, checkAvailabilityPricing_explicit]
  refine ⟨by norm_num, by norm_num, ?_, ?_, by decide⟩
  · show jsRound _ = 18
    refine jsRound_eq_of_intCast ?_
    norm_num [GST_RATE]
  · show jsRound _ = 12
    refine jsRound_eq_of_intCast ?_
    norm_num

/-- C6.  Guest-capacity gate of the newer `createBooking`
(src/unnamed/part_003 lines 99-108, 3 guests per room): the request is
rejected for insufficient rooms exactly when
`guestCount > 3 * requestedRooms`, and at the spec's boundary
`guests = 9, rooms = 3` passes while `guests = 10, rooms = 3` is
rejected. -/
theorem guest_capacity_gate :
    (∀ guests numberOfRooms : ℕ,
      (insufficientRooms guests numberOfRooms = true ↔
        3 * numberOfRooms < guests)) ∧
    insufficientRooms 9 3 = false ∧
    insufficientRooms 10 3 = true := by
  have main : ∀ guests numberOfRooms : ℕ,
      (insufficientRooms guests numberOfRooms = true ↔
        3 * numberOfRooms < guests) := by
    intro g n
    unfold insufficientRooms requiredRooms
    rw [decide_eq_true_eq, Int.lt_toNat, Int.lt_ceil,
      lt_div_iff₀ (by norm_num : (0 : ℚ) < 3)]
    have h : ((n : ℤ) : ℚ) * 3 = (((3 * n : ℕ) : ℕ) : ℚ) := by push_cast; ring
    rw [h, Nat.cast_lt]
  refine ⟨main, ?_, (main 10 3).mpr (by omega)⟩
  rw [← Bool.not_eq_true, main 9 3]
  omega

/-- C6 witness: the gate applied at a fresh boundary instance
(7 guests need 3 rooms; 2 rooms are insufficient). -/
theorem guest_capacity_gate_witness : insufficientRooms 7 2 = true :=
  (guest_capacity_gate.1 7 2).mpr (by omega)

lemma canBeCancelled_iff (b : Booking) (nowMs : ℤ) :
    canBeCancelled b nowMs = true ↔
      (b.status ≠ BStatus.completed ∧ b.status ≠ BStatus.cancelled ∧
       24 * msPerHour < b.checkIn * msPerDay - nowMs) := by
  unfold canBeCancelled
  simp only [Bool.and_eq_true, decide_eq_true_eq]
  constructor
  · rintro ⟨⟨h1, h2⟩, h3⟩
    refine ⟨h1, h2, ?_⟩
    rw [gt_iff_lt, lt_div_iff₀ (by norm_num [msPerHour] : (0 : ℚ) < ((msPerHour : ℤ) : ℚ))] at h3
    exact_mod_cast h3
  · rintro ⟨h1, h2, h3⟩
    refine ⟨⟨h1, h2⟩, ?_⟩
    rw [gt_iff_lt, lt_div_iff₀ (by norm_num [msPerHour] : (0 : ℚ) < ((msPerHour : ℤ) : ℚ))]
    exact_mod_cast h3

/-- C7.  Cancellation: `cancelBooking` transitions a reservation to
`cancelled` exactly when its status is neither `cancelled` nor
`completed` and the clock reads more than 24 hours before check-in
(`canBeCancelled`); otherwise it leaves the reservation unchanged; and
a `cancelled` reservation contributes 0 to every subsequent occupancy
computation on its dates. -/
theorem cancellation_policy :
    (∀ (b : Booking) (nowMs : ℤ) (reason : String),
      ((cancelBooking b nowMs reason).isSome = true ↔
        (b.status ≠ BStatus.cancelled ∧ b.status ≠ BStatus.completed ∧
         24 * msPerHour < b.checkIn * msPerDay - nowMs)) ∧
      (∀ b2, cancelBooking b nowMs reason = some b2 →
        b2.status = BStatus.cancelled) ∧
      (canBeCancelled b nowMs = false → cancelBooking b nowMs reason = none)) ∧
    (∀ (b : Booking) (store : List Booking) (roomId : ℕ) (d : ℤ),
      b.status = BStatus.cancelled →
      committedOn (b :: store) roomId d = committedOn store roomId d) := by
  constructor
  · intro b nowMs reason
    refine ⟨?_, ?_, ?_⟩
    · unfold cancelBooking
      by_cases h : canBeCancelled b nowMs = true
      · rw [if_pos h]
        simp only [Option.isSome_some, true_iff]
        have := (canBeCancelled_iff b nowMs).mp h
        exact ⟨this.2.1, this.1, this.2.2⟩
      · rw [if_neg h]
        simp only [Option.isSome_none, Bool.false_eq_true, false_iff]
        intro hcon
        exact h ((canBeCancelled_iff b nowMs).mpr ⟨hcon.2.1, hcon.1, hcon.2.2⟩)
    · intro b2 hsome
      unfold cancelBooking at hsome
      by_cases h : canBeCancelled b nowMs = true
      · rw [if_pos h] at hsome
        cases hsome
        rfl
      · rw [if_neg h] at hsome
        cases hsome
    · intro hfalse
      unfold cancelBooking
      rw [if_neg (by rw [hfalse]; exact Bool.false_ne_true)]
  · intro b store roomId d hcancelled
    unfold committedOn
    rw [List.filter_cons]
    have : occupies b roomId d = false := by
      unfold occupies
      rw [hcancelled]
      simp [BStatus.isActive]
    rw [this]
    simp

/-- C7 witness: a confirmed booking with check-in more than 24 hours
ahead is cancelled by `cancelBooking`, and a cancelled booking adds
nothing to the committed count on its own stay dates. -/
theorem cancellation_policy_witness :
    (cancelBooking bookingFuture 0 "changed plans").isSome = true ∧
    committedOn
      [{ bookingMay1to3 with status := BStatus.cancelled }] 0 1 =
      committedOn [] 0 1 :=
  ⟨(cancellation_policy.1 bookingFuture 0 "changed plans").1.mpr
      ⟨by decide, by decide, by decide⟩,
   cancellation_policy.2 { bookingMay1to3 with status := BStatus.cancelled }
      [] 0 1 rfl⟩

/-- C10.  The date-availability checks clamp the available count at
zero — `availableRooms = Math.max(0, totalRooms - maxBookedRooms)` is
never negative even on overcommitted stores — and report
`available = false` exactly when the clamped count is below the
requested unit count (`checkRoomTypeDateAvailability` compares against
`requestedRooms`; `checkDateAvailability` takes no requested count and
compares against 1, i.e. `availableRooms > 0`). -/
theorem availability_reports_clamped :
    (∀ (store : List Booking) (roomIds : List ℕ)
       (totalRooms requestedRooms : ℕ) (checkIn checkOut : ℤ),
      0 ≤ (checkRoomTypeDateAvailability store roomIds totalRooms
            requestedRooms checkIn checkOut).availableRooms ∧
      ((checkRoomTypeDateAvailability store roomIds totalRooms
            requestedRooms checkIn checkOut).available = false ↔
        (checkRoomTypeDateAvailability store roomIds totalRooms
            requestedRooms checkIn checkOut).availableRooms
          < requestedRooms)) ∧
    (∀ (store : List Booking) (room : Room) (checkIn checkOut : ℤ),
      0 ≤ (checkDateAvailability store room checkIn checkOut).availableRooms ∧
      ((checkDateAvailability store room checkIn checkOut).available = false ↔
        (checkDateAvailability store room checkIn checkOut).availableRooms
          < 1)) := by
  constructor
  · intro store roomIds tot req ci co
    simp only [checkRoomTypeDateAvailability]
    refine ⟨le_max_left 0 _, ?_⟩
    rw [decide_eq_false_iff_not, not_le]
  · intro store room ci co
    simp only [checkDateAvailability]
    refine ⟨le_max_left 0 _, ?_⟩
    rw [decide_eq_false_iff_not, not_lt]
    constructor <;> intro h <;> omega

lemma createBooking_accepted_inv
    {rooms : List Room} {today : ℤ} {store : List Booking} {req : CreateReq}
    {t r : String} {b : Booking}
    (h : createBooking rooms today store req t r = Decision.accepted b) :
    findConflicting store req.room req.checkIn req.checkOut = none ∧
    b.room = req.room ∧ b.checkIn = req.checkIn ∧ b.checkOut = req.checkOut ∧
    b.numberOfRooms = 1 ∧ b.status = BStatus.confirmed := by
  unfold createBooking at h
  split at h
  · exact Decision.noConfusion h
  · split at h
    · exact Decision.noConfusion h
    · split at h
      · exact Decision.noConfusion h
      · split at h
        · exact Decision.noConfusion h
        · split at h
          · exact Decision.noConfusion h
          · injection h with hb
            subst hb
            exact ⟨by assumption, rfl, rfl, rfl, rfl, rfl⟩

lemma storeInv_nil : storeInv [] :=
  ⟨List.Pairwise.nil, by intro b hb; cases hb⟩

lemma storeInv_step (rooms : List Room) (today : ℤ) (store : List Booking)
    (q : CreateReq × String × String) (h : storeInv store) :
    storeInv (stepStore rooms today store q) := by
  unfold stepStore
  cases hcb : createBooking rooms today store q.1 q.2.1 q.2.2 with
  | rejected reason => exact h
  | accepted b =>
    obtain ⟨hcnone, hroom, hci, hco, hn, hst⟩ := createBooking_accepted_inv hcb
    have hall : ∀ b2 ∈ store,
        conflictsClosed q.1.room q.1.checkIn q.1.checkOut b2 = false := by
      intro b2 hb2
      exact Bool.eq_false_iff.mpr (List.find?_eq_none.mp hcnone b2 hb2)
    constructor
    · rw [List.pairwise_append]
      refine ⟨h.1, List.pairwise_singleton _ _, ?_⟩
      intro a ha b2 hb2
      rw [List.mem_singleton] at hb2
      subst hb2
      intro hroomeq hacta hactb
      have hcf := hall a ha
      unfold conflictsClosed at hcf
      have hroomq : (a.room == q.1.room) = true := by
        rw [beq_iff_eq, ← hroom]; exact hroomeq
      rw [hroomq, hacta, Bool.true_and, Bool.true_and] at hcf
      rw [Bool.and_eq_false_iff] at hcf
      rw [hci, hco]
      rcases hcf with hz | hw
      · right
        have := decide_eq_false_iff_not.mp hz
        omega
      · left
        have := decide_eq_false_iff_not.mp hw
        omega
    · intro b2 hb2
      rw [List.mem_append] at hb2
      rcases hb2 with hb2 | hb2
      · exact h.2 b2 hb2
      · rw [List.mem_singleton] at hb2
        subst hb2
        exact hn

lemma committedOn_le_one (store : List Booking) (roomId : ℕ) (d : ℤ)
    (hp : List.Pairwise activeDisjoint store)
    (h1 : ∀ b ∈ store, b.numberOfRooms = 1) :
    committedOn store roomId d ≤ 1 := by
  unfold committedOn
  have hpf : List.Pairwise activeDisjoint
      (store.filter (fun b => occupies b roomId d)) :=
    hp.sublist (List.filter_sublist store)
  cases hfl : store.filter (fun b => occupies b roomId d) with
  | nil => simp [hfl]
  | cons x tl =>
    cases tl with
    | nil =>
      have hx : x ∈ store :=
        (List.mem_filter.mp (hfl ▸ List.mem_cons_self x [])).1
      simp [hfl, h1 x hx]
    | cons y tl2 =>
      exfalso
      rw [hfl] at hpf
      have hrel := (List.pairwise_cons.mp hpf).1 y (List.mem_cons_self y tl2)
      have hxmem : x ∈ store.filter (fun b => occupies b roomId d) :=
        hfl ▸ List.mem_cons_self x (y :: tl2)
      have hymem : y ∈ store.filter (fun b => occupies b roomId d) :=
        hfl ▸ List.mem_cons_of_mem x (List.mem_cons_self y tl2)
      have hox : occupies x roomId d = true := (List.mem_filter.mp hxmem).2
      have hoy : occupies y roomId d = true := (List.mem_filter.mp hymem).2
      unfold occupies at hox hoy
      simp only [Bool.and_eq_true, beq_iff_eq, decide_eq_true_eq] at hox hoy
      obtain ⟨⟨⟨hxr, hxa⟩, hxle⟩, hxlt⟩ := hox
      obtain ⟨⟨⟨hyr, hya⟩, hyle⟩, hylt⟩ := hoy
      rcases hrel (hxr.trans hyr.symm) hxa hya with hd | hd <;> omega

lemma storeInv_run (rooms : List Room) (today : ℤ)
    (qs : List (CreateReq × String × String)) :
    storeInv (runRequests rooms today qs) := by
  unfold runRequests
  suffices h : ∀ store, storeInv store →
      storeInv (qs.foldl (stepStore rooms today) store) from h [] storeInv_nil
  induction qs with
  | nil => intro store h; simpa using h
  | cons q qs ih =>
    intro store h
    rw [List.foldl_cons]
    exact ih _ (storeInv_step rooms today store q h)

/-- C1.  No-overcommit invariant: in every store reachable from the
empty store by only-accepted `createBooking` requests
(`bookingController.ts`), for every catalogued room type `R` and every
calendar day `d`, the committed units (sum of `numberOfRooms` over
active bookings of the room covering `d`) never exceed `R.totalRooms`.
The closed-interval conflict check keeps active bookings of a room
pairwise date-disjoint, and this controller generation persists
one-unit bookings, so each day carries at most one committed unit;
`1 ≤ R.totalRooms` is the §3 RoomType invariant `totalUnits ≥ 1`. -/
theorem no_overcommit_invariant :
    ∀ (rooms : List Room) (today : ℤ)
      (qs : List (CreateReq × String × String)) (roomId : ℕ) (R : Room)
      (d : ℤ),
      findRoom rooms roomId = some R → 1 ≤ R.totalRooms →
      committedOn (runRequests rooms today qs) roomId d ≤ R.totalRooms := by
  intro rooms today qs roomId R d hfind htot
  have hinv := storeInv_run rooms today qs
  exact le_trans (committedOn_le_one _ roomId d hinv.1 hinv.2) htot

/-- C1 witness: a two-request run (the second request is rejected by
the conflict check) stays within the single unit of `roomOne`. -/
theorem no_overcommit_invariant_witness :
    findRoom [roomOne] 0 = some roomOne ∧ 1 ≤ roomOne.totalRooms ∧
    committedOn
      (runRequests [roomOne] 0 [(reqOverlap, "T", "R"), (reqMay3, "U", "S")])
      0 1 ≤ roomOne.totalRooms :=
  ⟨by decide, by decide,
   no_overcommit_invariant [roomOne] 0
     [(reqOverlap, "T", "R"), (reqMay3, "U", "S")] 0 roomOne 1
     (by decide) (by decide)⟩

/-- C2 (amended).  Admission is decided by the existence of a single
overlapping reservation: a booking-creation request that passes the
precondition checks (room found and bookable, `checkOut > checkIn`,
`checkIn ≥ today`) is accepted if and only if NO active booking of the
room satisfies the closed-interval overlap
`b.checkIn ≤ req.checkOut ∧ req.checkIn ≤ b.checkOut` — not by the
spec's aggregate test `availableUnits ≥ requestedUnits` (see the
counterexample). -/
theorem admission_accepts_iff_no_single_overlap :
    ∀ (rooms : List Room) (today : ℤ) (store : List Booking)
      (req : CreateReq) (t r : String),
      (∃ b, createBooking rooms today store req t r = Decision.accepted b) ↔
      ((∃ room, findRoom rooms req.room = some room ∧
          room.isAvailable = true) ∧
       req.checkIn < req.checkOut ∧ today ≤ req.checkIn ∧
       ∀ b2 ∈ store, ¬(b2.room = req.room ∧ b2.status.isActive = true ∧
         b2.checkIn ≤ req.checkOut ∧ req.checkIn ≤ b2.checkOut)) := by
  intro rooms today store req t r
  unfold createBooking
  cases hfind : findRoom rooms req.room with
  | none =>
    constructor
    · rintro ⟨b, hb⟩; exact Decision.noConfusion hb
    · rintro ⟨⟨room, hroom, _⟩, _⟩; cases hroom
  | some room =>
    dsimp only
    by_cases hav : (!room.isAvailable) = true
    · rw [if_pos hav]
      constructor
      · rintro ⟨b, hb⟩; exact Decision.noConfusion hb
      · rintro ⟨⟨room2, hroom2, hav2⟩, _⟩
        rw [Option.some_inj] at hroom2
        subst hroom2
        rw [hav2] at hav
        exact Bool.noConfusion hav
    · rw [if_neg hav]
      have havt : room.isAvailable = true := by
        cases hroomav : room.isAvailable
        · rw [hroomav] at hav; exact absurd rfl hav
        · rfl
      by_cases hdo : req.checkOut ≤ req.checkIn
      · rw [if_pos hdo]
        constructor
        · rintro ⟨b, hb⟩; exact Decision.noConfusion hb
        · rintro ⟨_, hlt, _⟩; omega
      · rw [if_neg hdo]
        by_cases hpast : req.checkIn < today
        · rw [if_pos hpast]
          constructor
          · rintro ⟨b, hb⟩; exact Decision.noConfusion hb
          · rintro ⟨_, _, hle, _⟩; omega
        · rw [if_neg hpast]
          cases hc : findConflicting store req.room req.checkIn req.checkOut with
          | some c =>
            constructor
            · rintro ⟨b, hb⟩; exact Decision.noConfusion hb
            · rintro ⟨_, _, _, hall⟩
              have hcm : c ∈ store := List.mem_of_find?_eq_some hc
              have hcp : conflictsClosed req.room req.checkIn req.checkOut c
                  = true := List.find?_some hc
              unfold conflictsClosed at hcp
              simp only [Bool.and_eq_true, beq_iff_eq,
                decide_eq_true_eq] at hcp
              obtain ⟨⟨⟨hr1, hr2⟩, hr3⟩, hr4⟩ := hcp
              exact (hall c hcm ⟨hr1, hr2, hr3, hr4⟩).elim
          | none =>
            constructor
            · intro _
              refine ⟨⟨room, rfl, havt⟩, by omega, by omega, ?_⟩
              intro b2 hb2 ⟨hb1, hb2a, hb3, hb4⟩
              have := List.find?_eq_none.mp hc b2 hb2
              apply this
              unfold conflictsClosed
              simp only [Bool.and_eq_true, beq_iff_eq, decide_eq_true_eq]
              exact ⟨⟨⟨hb1, hb2a⟩, hb3⟩, hb4⟩
            · intro _
              exact ⟨_, rfl⟩

/-- C2 witness: on an empty store the characterization yields an
acceptance for a request that passes the precondition checks. -/
theorem admission_characterization_witness :
    ∃ b, createBooking [roomOne] 0 [] reqOverlap "T" "R"
      = Decision.accepted b :=
  (admission_accepts_iff_no_single_overlap [roomOne] 0 [] reqOverlap
      "T" "R").mpr
    ⟨⟨roomOne, by decide, by decide⟩, by decide, by decide,
     by intro b2 hb2 _; cases hb2⟩

/-- C2 counterexample: room type with 2 units, one existing one-unit
booking over the requested dates.  The spec's aggregate admission test
holds (`1 requested + 1 committed ≤ 2 total`), yet `createBooking`
rejects the request because a single overlapping reservation exists —
refuting "accepted iff availableUnits ≥ requestedUnits". -/
theorem admission_rejects_despite_capacity :
    createBooking [roomTwo] 0 [bookingMay1to3] reqOverlap "T" "R"
      = Decision.rejected RejectReason.dateConflict ∧
    specAdmits [bookingMay1to3] 0 roomTwo.totalRooms
      reqOverlap.checkIn reqOverlap.checkOut reqOverlap.numberOfRooms := by
  constructor
  · decide
  · show reqOverlap.numberOfRooms
      + specMaxCommitted [bookingMay1to3] 0 reqOverlap.checkIn
          reqOverlap.checkOut ≤ roomTwo.totalRooms
    decide

/-- C3 (amended).  Checkout-day exclusivity holds in the occupancy
aggregation and the half-open availability checks — a booking never
occupies its own checkout day, the May 1 to May 3 fixture occupies days
0 and 1 but not day 2, `findOverlapping`'s half-open test never flags a
request starting on an existing booking's checkout day, and
`checkDateAvailability` reports the checkout day available on a
one-unit room — but `createBooking`'s closed-interval conflict query
REJECTS a second reservation checking in on that day (see the
counterexample). -/
theorem checkout_day_semantics :
    (∀ (b : Booking) (roomId : ℕ), occupies b roomId b.checkOut = false) ∧
    occupies bookingMay1to3 0 0 = true ∧
    occupies bookingMay1to3 0 1 = true ∧
    occupies bookingMay1to3 0 2 = false ∧
    (∀ (b : Booking) (checkOut2 : ℤ),
      overlapsHalfOpen b.room b.checkOut checkOut2 b = false) ∧
    (checkDateAvailability [bookingMay1to3] roomOne 2 3).available = true ∧
    createBooking [roomOne] 0 [bookingMay1to3] reqMay3 "T" "R"
      = Decision.rejected RejectReason.dateConflict := by
  refine ⟨?_, by decide, by decide, by decide, ?_, by decide, by decide⟩
  · intro b roomId
    unfold occupies
    have h : decide (b.checkOut < b.checkOut) = false := by
      simp
    rw [h, Bool.and_false]
  · intro b checkOut2
    unfold overlapsHalfOpen
    have h : decide (b.checkOut < b.checkOut) = false := by
      simp
    rw [h]
    simp

/-- C3 counterexample: against a one-unit room holding the reservation
with `checkIn = 2024-05-01`, `checkOut = 2024-05-03`, a second request
with `checkIn = 2024-05-03` is REJECTED by `createBooking`
(`bookingController.ts` lines 163-169, closed-interval query), not
accepted as the claim states. -/
theorem checkout_day_booking_rejected :
    roomOne.totalRooms = 1 ∧
    bookingMay1to3.checkOut = reqMay3.checkIn ∧
    createBooking [roomOne] 0 [bookingMay1to3] reqMay3 "U" "S"
      = Decision.rejected RejectReason.dateConflict := by
  refine ⟨rfl, rfl, by decide⟩

lemma bookedOnDefault1_eq_zero {bs : List Booking} {d : ℤ}
    (h : ∀ b ∈ bs, ¬(b.checkIn ≤ d ∧ d < b.checkOut)) :
    bookedOnDefault1 bs d = 0 := by
  unfold bookedOnDefault1
  have hnil : bs.filter (fun b => b.checkIn ≤ d && d < b.checkOut) = [] := by
    rw [List.filter_eq_nil_iff]
    intro b hb
    simp only [Bool.and_eq_true, decide_eq_true_eq]
    intro hcon
    exact h b hb hcon
  rw [hnil]
  rfl

/-- C8 (amended).  The 30-day calendar of `getRoomAvailability` emits
one entry per day for the days `start, start+1, ..., start+30` — the
loop `while (calendarDate <= end)` with `end = start + 30` is
INCLUSIVE, so the window end day itself also appears (31 entries, see
the counterexample); each day appears exactly once, and a day no stored
booking occupies reports the full `totalRooms` as available (committed
count defaults to 0). -/
theorem calendar_domain :
    ∀ (store : List Booking) (room : Room) (start : ℤ),
      ((getRoomAvailability store room start).map CalEntry.date)
        = (List.range 31).map (fun k : ℕ => start + (k : ℤ)) ∧
      ((getRoomAvailability store room start).map CalEntry.date).Nodup ∧
      ∀ e ∈ getRoomAvailability store room start,
        (∀ b ∈ store, occupies b room.id e.date = false) →
        e.availableRooms = (room.totalRooms : ℤ) := by
  intro store room start
  have hdates : ((getRoomAvailability store room start).map CalEntry.date)
      = (List.range 31).map (fun k : ℕ => start + (k : ℤ)) := by
    simp only [getRoomAvailability, List.map_map]
    rfl
  refine ⟨hdates, ?_, ?_⟩
  · rw [hdates]
    refine List.Nodup.map ?_ (List.nodup_range 31)
    intro a b hab
    dsimp only at hab
    omega
  · intro e he hno
    simp only [getRoomAvailability, List.mem_map] at he
    obtain ⟨k, hk, hek⟩ := he
    subst hek
    show (room.totalRooms : ℤ)
        - bookedOnDefault1
            (store.filter (overlapsHalfOpen room.id start (start + 30)))
            (start + (k : ℤ)) = (room.totalRooms : ℤ)
    rw [bookedOnDefault1_eq_zero]
    · norm_num
    intro b hb hcon
    have hbs : b ∈ store := (List.mem_filter.mp hb).1
    have hbo : overlapsHalfOpen room.id start (start + 30) b = true :=
      (List.mem_filter.mp hb).2
    unfold overlapsHalfOpen at hbo
    simp only [Bool.and_eq_true, beq_iff_eq, decide_eq_true_eq] at hbo
    have hfalse := hno b hbs
    have hocc : occupies b room.id (start + (k : ℤ)) = true := by
      unfold occupies
      simp only [Bool.and_eq_true, beq_iff_eq, decide_eq_true_eq]
      exact ⟨⟨⟨hbo.1.1.1, hbo.1.1.2⟩, hcon.1⟩, hcon.2⟩
    rw [hfalse] at hocc
    exact Bool.noConfusion hocc

/-- C8 witness: on an empty store, every calendar day of the fixture
room reports its full unit count. -/
theorem calendar_domain_witness :
    ∀ e ∈ getRoomAvailability [] roomOne 0,
      e.availableRooms = (roomOne.totalRooms : ℤ) := by
  intro e he
  exact (calendar_domain [] roomOne 0).2.2 e he (by intro b hb; cases hb)

/-- C8 counterexample: the claim says the per-day availability covers
exactly the half-open window (30 days, `windowEnd` excluded), but the
calendar has 31 entries and the window end day `start + 30` itself
appears. -/
theorem calendar_includes_window_end :
    (getRoomAvailability [] roomOne 0).length = 31 ∧
    (30 : ℤ) ∈ (getRoomAvailability [] roomOne 0).map CalEntry.date := by
  constructor
  · decide
  · decide

/-- C5 (amended).  The pricing persisted with a new reservation is the
client-supplied request pricing passed through the schema pre-save
hook: every accepted `createBooking` persists exactly the pre-save
image of a document carrying the request's `nights`, `pricePerNight`,
`totalPrice` and tax fields; and the hook computes the Pricing
Calculator's total (`basePrice + round(basePrice * 0.18)`) only in the
fallback case where the client `totalPrice` is absent/zero (with a
nonzero rate, no explicit GST override, and `nights` already the stay
length).  `BookingPricingService.calculatePricing` itself is never
invoked on this path, so a nonzero client total is persisted verbatim
(see the counterexample). -/
theorem persisted_pricing_is_presave_of_request :
    (∀ (bk : Booking) (t r : String),
      bk.totalPrice = 0 → bk.pricePerNight ≠ 0 → bk.gstAmount = 0 →
      bk.nights = bk.checkOut - bk.checkIn → bk.checkIn < bk.checkOut →
      (preSave bk t r).totalPrice
        = (calculatePricing bk.pricePerNight bk.checkIn bk.checkOut
            bk.numberOfRooms).totalPrice) ∧
    (∀ (rooms : List Room) (today : ℤ) (store : List Booking)
       (req : CreateReq) (t r : String) (b : Booking),
      createBooking rooms today store req t r = Decision.accepted b →
      ∃ base, b = preSave base t r ∧ base.nights = req.nights ∧
        base.pricePerNight = req.pricePerNight ∧
        base.totalPrice = req.totalPrice ∧
        base.gstAmount = req.taxAmount) := by
  constructor
  · intro bk t r h0 hp hg hn hlt
    simp only [preSave]
    rw [if_neg (show ¬bk.nights = 0 by omega)]
    rw [if_pos (And.intro hp h0)]
    rw [if_neg (show ¬bk.gstAmount ≠ 0 from fun hcon => hcon hg)]
    rw [calculatePricing_explicit]
    dsimp only
    rw [hn]
  · intro rooms today store req t r b h
    unfold createBooking at h
    split at h
    · exact Decision.noConfusion h
    · split at h
      · exact Decision.noConfusion h
      · split at h
        · exact Decision.noConfusion h
        · split at h
          · exact Decision.noConfusion h
          · split at h
            · exact Decision.noConfusion h
            · injection h with hb
              exact ⟨_, hb.symm, rfl, rfl, rfl, rfl⟩

/-- C5 witness: the pre-save fallback computes the calculator total on
a zero-priced document, and a concrete accepted request is persisted as
the pre-save image of its own fields. -/
theorem persisted_pricing_witness :
    (bookingZeroPrice.totalPrice = 0 ∧ bookingZeroPrice.pricePerNight ≠ 0 ∧
     bookingZeroPrice.gstAmount = 0 ∧
     bookingZeroPrice.nights
       = bookingZeroPrice.checkOut - bookingZeroPrice.checkIn ∧
     bookingZeroPrice.checkIn < bookingZeroPrice.checkOut ∧
     (preSave bookingZeroPrice "T" "R").totalPrice
       = (calculatePricing bookingZeroPrice.pricePerNight
           bookingZeroPrice.checkIn bookingZeroPrice.checkOut
           bookingZeroPrice.numberOfRooms).totalPrice) ∧
    (∃ base, (preSave
        { room := 0, checkIn := 0, checkOut := 2, numberOfRooms := 1,
          status := .confirmed, guests := 1, nights := 2,
          pricePerNight := 1000, totalPrice := 2360, gstAmount := 360,
          bookingReference := "", cancelledAt := none,
          cancellationReason := none } "T" "R") = preSave base "T" "R" ∧
      base.nights = reqOverlap.nights ∧
      base.pricePerNight = reqOverlap.pricePerNight ∧
      base.totalPrice = reqOverlap.totalPrice ∧
      base.gstAmount = reqOverlap.taxAmount) :=
  ⟨⟨rfl, by decide, rfl, by decide, by decide,
    persisted_pricing_is_presave_of_request.1 bookingZeroPrice "T" "R"
      rfl (by decide) rfl (by decide) (by decide)⟩,
   persisted_pricing_is_presave_of_request.2 [roomOne] 0 [] reqOverlap
     "T" "R" _ rfl⟩

/-- C5 counterexample: a request whose client-supplied `totalPrice` is
1 passes the precondition checks on an empty store and is persisted
with `totalPrice = 1`, while the Pricing Calculator's total for the
same rate, dates and unit count is 3540 — the persisted pricing does
not equal the calculator's output. -/
theorem client_total_persisted_verbatim :
    createBooking [roomOne] 0 [] reqClientPrice "T" "R"
      = Decision.accepted
          { room := 0, checkIn := 0, checkOut := 3, numberOfRooms := 1,
            status := .confirmed, guests := 1, nights := 3,
            pricePerNight := 1000, totalPrice := 1, gstAmount := 0,
            bookingReference := "BK-T-R", cancelledAt := none,
            cancellationReason := none } ∧
    (calculatePricing 1000 0 3 1).totalPrice = 3540 ∧
    (1 : ℤ) ≠ 3540 := by
  refine ⟨by decide, ?_, by decide⟩
  rw [calculatePricing_explicit]
  show (1000 : ℤ) * (3 - 0) * ((1 : ℕ) : ℤ)
      + jsRound (((1000 * (3 - 0) * ((1 : ℕ) : ℤ) : ℤ) : ℚ) * GST_RATE)
    = 3540
  have h1 : (1000 : ℤ) * (3 - 0) * ((1 : ℕ) : ℤ) = 3000 := by norm_num
  rw [h1]
  have h2 : jsRound (((3000 : ℤ) : ℚ) * GST_RATE) = 540 := by
    refine jsRound_eq_of_intCast ?_
    norm_num [GST_RATE]
  rw [h2]
  norm_num

/-- C9 (amended).  Every generated reference has the fixed format
`BK-<time token>-<random suffix>`, but on a reference collision the
save path performs NO retry: the single `booking.save()` surfaces the
duplicate-key error and the controller (src/unnamed/part_003 lines
203-210) maps it straight to a failed request — the save fails exactly
when the one generated reference already exists, regardless of what
further generation attempts would have produced. -/
theorem reference_generation_no_retry :
    ∀ (existingRefs : List String) (b : Booking) (t r : String),
      b.bookingReference = "" →
      ((preSave b t r).bookingReference = "BK" ++ "-" ++ t ++ "-" ++ r ∧
       (saveBooking existingRefs b t r = Except.error SaveError.duplicateKey
         ↔ existingRefs.contains (generateReference t r) = true)) := by
  intro ex b t r href
  have h1 : (preSave b t r).bookingReference = generateReference t r := by
    simp only [preSave]
    rw [if_pos href]
  refine ⟨h1, ?_⟩
  simp only [saveBooking]
  rw [h1]
  by_cases hc : ex.contains (generateReference t r) = true
  · rw [if_pos hc]
    simp only [hc, iff_true]
  · rw [if_neg hc]
    constructor
    · intro hcon
      exact Except.noConfusion hcon
    · intro hcon
      exact absurd hcon hc

/-- C9 witness: the format and no-retry characterization applied at the
fixture document. -/
theorem reference_generation_no_retry_witness :
    (preSave bookingNoRef "T" "R").bookingReference
        = "BK" ++ "-" ++ "T" ++ "-" ++ "R" ∧
    (saveBooking ["BK-T-R"] bookingNoRef "T" "R"
        = Except.error SaveError.duplicateKey
      ↔ (["BK-T-R"].contains (generateReference "T" "R")) = true) :=
  reference_generation_no_retry ["BK-T-R"] bookingNoRef "T" "R" rfl

/-- C9 counterexample: with the one generated reference colliding, the
code's single-attempt save fails with the duplicate-key error even
though a retried generation (the spec's bounded-retry contract,
`specSaveWithRetry` with 3 retries) succeeds on the very next
candidate — refuting "reference generation is retried a bounded number
of times before the whole request fails". -/
theorem reference_collision_not_retried :
    saveBooking ["BK-T-R"] bookingNoRef "T" "R"
      = Except.error SaveError.duplicateKey ∧
    specSaveWithRetry ["BK-T-R"] bookingNoRef [("T", "R"), ("U", "S")] 3
      = Except.ok
          { room := 0, checkIn := 0, checkOut := 1, numberOfRooms := 1,
            status := .confirmed, guests := 1, nights := 1,
            pricePerNight := 1000, totalPrice := 1180, gstAmount := 180,
            bookingReference := "BK-U-S", cancelledAt := none,
            cancellationReason := none } := by
  constructor
  · rfl
  · rfl

/-- C10 witness: on an overcommitted store (a five-unit booking against
a one-unit room) the clamped report is still nonnegative and the
availability flag matches the clamped comparison. -/
theorem availability_reports_clamped_witness :
    0 ≤ (checkDateAvailability
        [{ bookingMay1to3 with numberOfRooms := 5 }] roomOne 0 2).availableRooms ∧
    ((checkDateAvailability
        [{ bookingMay1to3 with numberOfRooms := 5 }] roomOne 0 2).available
        = false ↔
      (checkDateAvailability
        [{ bookingMay1to3 with numberOfRooms := 5 }] roomOne 0 2).availableRooms
        < 1) :=
  availability_reports_clamped.2
    [{ bookingMay1to3 with numberOfRooms := 5 }] roomOne 0 2
